import Mathlib

/-!
# Verification of the browser-test-automation service (`api.py`)

A shallow embedding of the active code of `src/api.py` (the FastAPI service):
the outcome classifier `_simple_comparison`, the task-string builder
`_build_task_string_with_screenshots`, and the run orchestration
`execute_test_with_streaming` / `_execute_with_monitoring`.

Modelling conventions:
* Python strings are Lean `String`s; `str.lower()` is modelled per character
  by `Char.toLower` (the keyword sets involved are ASCII).
* `needle in haystack` (Python substring test) is `containsSub`.
* The opaque external collaborators (LLM initialisation, browser start-up,
  the agent run, screenshot capture, websocket delivery, browser close) are
  abstracted by an environment `Env` that says, for each opaque call, whether
  it succeeds and what it yields; the orchestration body is then a pure
  function of the environment and the request.
* Wall-clock-derived fields (`test_id`, `timestamp`) are fed from the
  environment; the float `execution_time_seconds` is not modelled.
-/

namespace Hackathon

/-! ## String primitives modelling Python `str` operations -/

/-- `str.lower()`, modelled per character (ASCII case folding). -/
def lowerStr (s : String) : String := ⟨s.data.map Char.toLower⟩

/-- Does the first list occur as a prefix of the second? -/
def isPrefList : List Char → List Char → Bool
  | [], _ => true
  | _ :: _, [] => false
  | a :: as, b :: bs => a == b && isPrefList as bs

/-- Does `needle` occur as a contiguous sublist of the haystack?
Models Python's `needle in haystack` on strings. -/
def containsSubList (needle : List Char) : List Char → Bool
  | [] => isPrefList needle []
  | c :: cs => isPrefList needle (c :: cs) || containsSubList needle cs

/-- Python `needle in haystack` for strings. -/
def containsSub (haystack needle : String) : Bool :=
  containsSubList needle.data haystack.data

/-! ## The outcome classifier `_simple_comparison` (api.py lines 495-511) -/

/-- `success_keywords` from `_simple_comparison`. -/
def success_keywords : List String :=
  ["success", "completed", "achieved", "passed", "login", "dashboard"]

/-- `failure_keywords` from `_simple_comparison`. -/
def failure_keywords : List String :=
  ["failed", "error", "exception", "timeout", "not found"]

/-- `success_count = sum(1 for keyword in success_keywords if keyword in actual_lower)`. -/
def successCount (actual : String) : Nat :=
  (success_keywords.filter (fun k => containsSub (lowerStr actual) k)).length

/-- `failure_count = sum(1 for keyword in failure_keywords if keyword in actual_lower)`. -/
def failureCount (actual : String) : Nat :=
  (failure_keywords.filter (fun k => containsSub (lowerStr actual) k)).length

/-- `_simple_comparison(expected, actual)` from api.py lines 495-511. -/
def simpleComparison (expected actual : String) : String :=
  if failureCount actual > 0 then
    "FAILED: Test execution encountered issues. Expected: " ++ expected ++
      ". Actual: " ++ actual
  else if successCount actual > 0 then
    "SUCCESS: Test appears to have completed successfully. Expected: " ++ expected ++
      ". Actual: " ++ actual
  else
    "PARTIAL: Test completed but outcome unclear. Expected: " ++ expected ++
      ". Actual: " ++ actual

/-- The three verdict classes the classifier can emit. -/
inductive Verdict where
  | failed
  | success
  | unclear
deriving DecidableEq

/-- The verdict class chosen by `_simple_comparison`: it is a function of the
actual text alone. -/
def verdictOf (actual : String) : Verdict :=
  if failureCount actual > 0 then .failed
  else if successCount actual > 0 then .success
  else .unclear

/-- The message `_simple_comparison` renders for a given verdict class. -/
def verdictMessage (v : Verdict) (expected actual : String) : String :=
  match v with
  | .failed =>
    "FAILED: Test execution encountered issues. Expected: " ++ expected ++
      ". Actual: " ++ actual
  | .success =>
    "SUCCESS: Test appears to have completed successfully. Expected: " ++ expected ++
      ". Actual: " ++ actual
  | .unclear =>
    "PARTIAL: Test completed but outcome unclear. Expected: " ++ expected ++
      ". Actual: " ++ actual

/-! ## Request data model (api.py lines 280-296) -/

/-- `TestStep`: up to 10 optional step strings (`step1` .. `step10`). -/
structure TestStep where
  step1 : Option String := none
  step2 : Option String := none
  step3 : Option String := none
  step4 : Option String := none
  step5 : Option String := none
  step6 : Option String := none
  step7 : Option String := none
  step8 : Option String := none
  step9 : Option String := none
  step10 : Option String := none
deriving DecidableEq

/-- The values of `Steps.model_dump()`, in declaration order. -/
def TestStep.toList (s : TestStep) : List (Option String) :=
  [s.step1, s.step2, s.step3, s.step4, s.step5,
   s.step6, s.step7, s.step8, s.step9, s.step10]

/-- `TestRequest`: the body of `POST /run-test`. -/
structure TestRequest where
  URL : String
  Title : String
  Steps : TestStep
  Expected_Outcome : String
deriving DecidableEq

/-! ## The task-string builder `_build_task_string_with_screenshots`
(api.py lines 470-493) -/

/-- Python truthiness of `step.strip()`: the string has a non-whitespace
character. -/
def stripTruthy (s : String) : Bool := s.data.any (fun c => !c.isWhitespace)

/-- `steps_list = [step for step in steps_dict.values() if step is not None and step.strip()]`. -/
def stepsList (s : TestStep) : List String :=
  (s.toList.filterMap id).filter stripTruthy

/-- `for i, step in enumerate(steps_list, 1): task_parts.append(f"{i}. {step}")`. -/
def numberLines (i : Nat) : List String → List String
  | [] => []
  | s :: rest => (toString i ++ ". " ++ s) :: numberLines (i + 1) rest

/-- The `task_parts` list built by `_build_task_string_with_screenshots`. -/
def taskParts (req : TestRequest) : List String :=
  ["Test Title: " ++ req.Title,
   "Expected Outcome: " ++ req.Expected_Outcome,
   "",
   "Navigate to: " ++ req.URL,
   "",
   "Execute the following steps one by one, taking time between each step:"]
  ++ numberLines 1 (stepsList req.Steps)
  ++ ["",
      "After completing all steps, validate the expected outcome.",
      "Expected outcome: " ++ req.Expected_Outcome]

/-- Python's `"\n".join(parts)`. -/
def joinLines : List String → String
  | [] => ""
  | [s] => s
  | s :: rest => s ++ "\n" ++ joinLines rest

/-- `_build_task_string_with_screenshots(test_request)`. -/
def buildTaskStringWithScreenshots (req : TestRequest) : String :=
  joinLines (taskParts req)

/-! ## Run orchestration `execute_test_with_streaming` (api.py lines 315-441)

The opaque collaborators are abstracted by `Env`: each fallible external call
either succeeds or raises with a message.  The orchestration body is then the
pure function `executeTestWithStreaming` of the environment and the request.
`RunTrace` records, besides the returned `TestResult`, the websocket send
attempts and how often `browser.close()` was attempted. -/

/-- `TestResult` (api.py lines 298-309).  The float field
`execution_time_seconds` (wall-clock arithmetic) is not modelled; the other
time-derived fields are fed from the environment. -/
structure TestResult where
  test_id : String
  title : String
  url : String
  status : String
  expected_outcome : String
  actual_outcome : String
  comparison_result : String
  execution_log : List String
  screenshots : List String
  timestamp : String
deriving DecidableEq

/-- The two JSON message shapes pushed over the websocket by the step hook
(api.py lines 418-423 and 432-436). -/
inductive WsMsg where
  | screenshot (data : String) (step : Nat) (message : String)
  | status (message : String) (step : Nat)
deriving DecidableEq

/-- Outcomes of the opaque external calls made by one request. -/
structure Env where
  /-- `start_time.isoformat()`. -/
  startTime : String
  /-- `int(start_time.timestamp())`. -/
  startEpoch : Nat
  /-- `end_time.isoformat()`. -/
  endTime : String
  /-- Truthiness of `os.getenv("GOOGLE_API_KEY")`. -/
  apiKeyPresent : Bool
  /-- `ChatGoogle(...)` raises with this message, when `some`. -/
  llmFail : Option String
  /-- `Browser(...)` raises with this message, when `some`. -/
  browserFail : Option String
  /-- How many `on_step_end` callbacks `agent.run` fires. -/
  runSteps : Nat
  /-- `agent.run` raises with this message after the callbacks, when `some`. -/
  runFail : Option String
  /-- The screenshot `_take_screenshot_from_agent` yields at the n-th callback
  (`none` models both a capture failure and an absent page). -/
  shot : Nat → Option String
  /-- Is a websocket attached (`if websocket:`)? -/
  wsAttached : Bool
  /-- Does the n-th `websocket.send_text` attempt succeed?  A failed send is
  swallowed by the bare `except: pass`, so it has no effect on the run; the
  delivered subsequence is computed from this flag after the fact. -/
  wsSendOk : Nat → Bool
  /-- `browser.close()` raises with this message, when `some`. -/
  closeFail : Option String

/-- The mutable containers of the `try:` body: `execution_log`, `screenshots`,
the websocket send attempts made so far, and how often `browser.close()` was
attempted. -/
structure TryState where
  log : List String
  screenshots : List String
  attempted : List WsMsg
  closeAttempts : Nat
deriving DecidableEq

/-- One `websocket.send_text(...)` attempt inside the hook (the surrounding
`try/except: pass` means failure changes nothing). -/
def attemptSend (st : TryState) (m : WsMsg) : TryState :=
  { st with attempted := st.attempted ++ [m] }

/-- The `step_hook` closure (api.py lines 407-438) at its n-th invocation
(`step_count = n` after the increment).  `shot` is the screenshot oracle and
`ws` the `if websocket:` condition captured by the closure. -/
def stepHook (shot : Nat → Option String) (ws : Bool) (st : TryState) (n : Nat) : TryState :=
  let st1 :=
    match shot n with
    | some s =>
      let st' := { st with screenshots := st.screenshots ++ [s] }
      if ws then
        attemptSend st' (.screenshot s n ("Step " ++ toString n ++ " completed"))
      else st'
    | none => st
  let st2 := { st1 with log := st1.log ++ ["Step " ++ toString n ++ " completed with screenshot"] }
  if ws then
    attemptSend st2 (.status ("Completed step " ++ toString n) n)
  else st2

/-- The hook invocations `1 .. n` performed by `agent.run(on_step_end=step_hook)`. -/
def runHooks (shot : Nat → Option String) (ws : Bool) (st : TryState) : Nat → TryState
  | 0 => st
  | n + 1 => stepHook shot ws (runHooks shot ws st n) (n + 1)

/-- Result of the `try:` body: normal completion, or an exception with its
message and whether `browser` was bound (`'browser' in locals()`). -/
inductive TryOut where
  | ok (st : TryState)
  | err (st : TryState) (msg : String) (browserBound : Bool)

/-- The `try:` body of `execute_test_with_streaming` (api.py lines 322-369),
step by step: start log line, credential check, LLM init, browser init, task
string, agent run with hooks, completion log line, close. -/
def tryBody (env : Env) : TryOut :=
  let st : TryState :=
    { log := ["Test started at " ++ env.startTime], screenshots := [],
      attempted := [], closeAttempts := 0 }
  if !env.apiKeyPresent then
    .err st "GOOGLE_API_KEY not found in environment variables" false
  else
    match env.llmFail with
    | some m => .err st m false
    | none =>
      let st := { st with log := st.log ++ ["Gemini LLM initialized successfully"] }
      match env.browserFail with
      | some m => .err st m false
      | none =>
        let st := { st with log := st.log ++ ["Browser initialized successfully"] }
        let st := runHooks env.shot env.wsAttached st env.runSteps
        match env.runFail with
        | some m => .err st m true
        | none =>
          let st := { st with log := st.log ++ ["Agent execution completed successfully"] }
          let st := { st with closeAttempts := st.closeAttempts + 1 }
          match env.closeFail with
          | some m => .err st m true
          | none => .ok { st with log := st.log ++ ["Browser closed successfully"] }

/-- The constant `actual_outcome` assigned after a completed agent run
(api.py line 357). -/
def actualSuccessMsg : String :=
  "Test execution completed successfully. All steps were performed."

/-- The delivered subsequence of the send attempts: the i-th attempt reaches
the client iff `wsSendOk i`. -/
def deliveredOf (env : Env) (attempted : List WsMsg) : List WsMsg :=
  (attempted.enum.filter (fun p => env.wsSendOk p.1)).map Prod.snd

/-- Everything one request produces: the `TestResult` returned to the caller,
the websocket send attempts and deliveries, and the number of
`browser.close()` attempts. -/
structure RunTrace where
  result : TestResult
  attemptedSends : List WsMsg
  deliveredSends : List WsMsg
  closeAttempts : Nat

/-- `execute_test_with_streaming` (api.py lines 315-401): run the `try:` body,
apply the `except` handler if it raised (error log line, overwritten status /
outcome / comparison, best-effort second close when `browser` was bound), and
assemble the `TestResult`. -/
def executeTestWithStreaming (env : Env) (req : TestRequest) : RunTrace :=
  match tryBody env with
  | .ok st =>
    { result :=
      { test_id := "test_" ++ toString env.startEpoch
        title := req.Title
        url := req.URL
        status := "success"
        expected_outcome := req.Expected_Outcome
        actual_outcome := actualSuccessMsg
        comparison_result := simpleComparison req.Expected_Outcome actualSuccessMsg
        execution_log := st.log
        screenshots := st.screenshots
        timestamp := env.endTime }
      attemptedSends := st.attempted
      deliveredSends := deliveredOf env st.attempted
      closeAttempts := st.closeAttempts }
  | .err st msg browserBound =>
    let st' := { st with
      log := st.log ++ ["ERROR: " ++ msg]
      closeAttempts := if browserBound then st.closeAttempts + 1 else st.closeAttempts }
    { result :=
      { test_id := "test_" ++ toString env.startEpoch
        title := req.Title
        url := req.URL
        status := "error"
        expected_outcome := req.Expected_Outcome
        actual_outcome := "Test failed with error: " ++ msg
        comparison_result := "Test could not be completed due to execution error"
        execution_log := st'.log
        screenshots := st'.screenshots
        timestamp := env.endTime }
      attemptedSends := st'.attempted
      deliveredSends := deliveredOf env st'.attempted
      closeAttempts := st'.closeAttempts }

/-- Was the browser constructed before the exception (if any)?  This is the
condition under which the code's cleanup path can see `'browser' in locals()`. -/
def browserInitialized (env : Env) : Bool :=
  env.apiKeyPresent && env.llmFail.isNone && env.browserFail.isNone

/-- The websocket messages the hook attempts to push for the completed step
`n`: the screenshot message when a screenshot was captured, then the status
message. -/
def stepMsgs (shot : Nat → Option String) (n : Nat) : List WsMsg :=
  (match shot n with
   | some s => [WsMsg.screenshot s n ("Step " ++ toString n ++ " completed")]
   | none => []) ++ [WsMsg.status ("Completed step " ++ toString n) n]

/-! ## Spec-side definitions for claim C1

The spec describes a keyword-tokenization rule (`tokenize the expected text
into words longer than two characters and count how many appear in the actual
text`, threshold `max(1, 20% of the expected-keyword count)`).  The source's
`_simple_comparison` contains no such rule, so these definitions follow the
spec's words, to be compared against the source-derived `simpleComparison`. -/

/-- Whitespace tokenizer: accumulates the current word (reversed) and splits
on whitespace runs, as Python's `str.split()` does. -/
def wordsAux (cur : List Char) : List Char → List String
  | [] => if cur.isEmpty then [] else [⟨cur.reverse⟩]
  | c :: cs =>
    if c.isWhitespace then
      (if cur.isEmpty then [] else [⟨cur.reverse⟩]) ++ wordsAux [] cs
    else
      wordsAux (c :: cur) cs

/-- The whitespace-separated words of a string. -/
def tokenizeWords (s : String) : List String := wordsAux [] s.data

/-- Claim-side definition following the spec's words: the expected text,
case-folded, tokenized into words, keeping the words longer than two
characters. -/
def specExpectedKeywords (expected : String) : List String :=
  (tokenizeWords (lowerStr expected)).filter (fun w => w.data.length > 2)

/-- Claim-side definition following the spec's words: how many expected
keywords occur in the case-folded actual text. -/
def specKeywordMatchCount (expected actual : String) : Nat :=
  ((specExpectedKeywords expected).filter
    (fun w => containsSub (lowerStr actual) w)).length

/-! ## Concrete demonstration inputs -/

/-- A demonstration request with two non-empty steps, matching the example
payload of the dashboard. -/
def reqDemo : TestRequest :=
  { URL := "https://example.com/login"
    Title := "User Login Test"
    Steps := { step1 := some "Click login", step2 := some "Enter password" }
    Expected_Outcome := "User should log in" }

/-- An environment in which every opaque call succeeds: two agent steps, each
with a screenshot, no websocket, close succeeds. -/
def envAllOk : Env :=
  { startTime := "2026-01-01T00:00:00"
    startEpoch := 0
    endTime := "2026-01-01T00:01:00"
    apiKeyPresent := true
    llmFail := none
    browserFail := none
    runSteps := 2
    runFail := none
    shot := fun _ => some "IMG"
    wsAttached := false
    wsSendOk := fun _ => true
    closeFail := none }

/-- As `envAllOk`, but the credential is missing. -/
def envNoKey : Env := { envAllOk with apiKeyPresent := false }

/-- As `envAllOk`, but `browser.close()` raises. -/
def envCloseFail : Env := { envAllOk with closeFail := some "browser close failed" }

/-- A websocket is attached, one step completes, but the screenshot capture
fails. -/
def envWsNoShot : Env :=
  { envAllOk with wsAttached := true, runSteps := 1, shot := fun _ => none }

/-- A websocket is attached and one step completes with a screenshot. -/
def envWsOk : Env := { envAllOk with wsAttached := true, runSteps := 1 }

/-! ## Lemmas about the classifier -/

lemma simpleComparison_eq_verdictMessage (e a : String) :
    simpleComparison e a = verdictMessage (verdictOf a) e a := by
  unfold simpleComparison verdictOf verdictMessage
  split
  · rfl
  · split <;> rfl

/-- The success verdict is only chosen when a success indicator matched. -/
lemma verdictOf_eq_success {a : String} (h : verdictOf a = .success) :
    0 < successCount a := by
  unfold verdictOf at h
  by_contra hs
  rcases Nat.lt_or_ge 0 (failureCount a) with hf | hf
  · rw [if_pos hf] at h
    exact Verdict.noConfusion h
  · rw [if_neg (by omega), if_neg hs] at h
    exact Verdict.noConfusion h

/-- The first character of each rendered message identifies the verdict class. -/
lemma verdictMessage_head (v : Verdict) (e a : String) :
    (verdictMessage v e a).data.head? =
      some (match v with | .failed => 'F' | .success => 'S' | .unclear => 'P') := by
  cases v <;> rfl

lemma verdictMessage_inj {v w : Verdict} {e1 a1 e2 a2 : String}
    (h : verdictMessage v e1 a1 = verdictMessage w e2 a2) : v = w := by
  have hh : (verdictMessage v e1 a1).data.head? = (verdictMessage w e2 a2).data.head? := by
    rw [h]
  rw [verdictMessage_head, verdictMessage_head] at hh
  cases v <;> cases w <;> simp_all

/-! ## Lemmas about the task-string builder -/

lemma numberLines_length (i : Nat) (l : List String) :
    (numberLines i l).length = l.length := by
  induction l generalizing i with
  | nil => rfl
  | cons s rest ih => simp [numberLines, ih]

lemma numberLines_getElem? (i : Nat) (l : List String) (j : Nat) :
    (numberLines i l)[j]? = l[j]?.map (fun s => toString (i + j) ++ ". " ++ s) := by
  induction l generalizing i j with
  | nil => simp [numberLines]
  | cons s rest ih =>
    cases j with
    | zero => simp [numberLines]
    | succ j =>
      simp only [numberLines, List.getElem?_cons_succ, ih (i + 1) j]
      have : i + 1 + j = i + (j + 1) := by omega
      rw [this]

lemma data_append (s t : String) : (s ++ t).data = s.data ++ t.data := rfl

lemma data_newline : ("\n" : String).data = ['\n'] := rfl

/-- Indexing into the middle block of a three-part concatenation whose first
block has six elements. -/
lemma getElem?_middle {α : Type} (A N B : List α) (i : Nat)
    (hA : A.length = 6) (hi : i < N.length) :
    (A ++ N ++ B)[6 + i]? = N[i]? := by
  rw [List.getElem?_append_left (by simp [hA]; omega)]
  rw [List.getElem?_append_right (by omega)]
  have h6 : 6 + i - A.length = i := by omega
  rw [h6]

lemma isPrefList_self_append (n r : List Char) : isPrefList n (n ++ r) = true := by
  induction n with
  | nil => rfl
  | cons c cs ih => simp [isPrefList, ih]

lemma containsSubList_of_append (l n r : List Char) :
    containsSubList n (l ++ n ++ r) = true := by
  induction l with
  | nil =>
    cases hn : n with
    | nil =>
      cases hr : (([] : List Char) ++ [] ++ r) with
      | nil => rfl
      | cons c cs => simp [containsSubList, isPrefList]
    | cons c cs =>
      simp only [List.nil_append]
      have : (c :: cs) ++ r = c :: (cs ++ r) := rfl
      rw [this]
      simp [containsSubList, isPrefList, isPrefList_self_append]
  | cons c cs ih =>
    have h2 : (c :: cs) ++ n ++ r = c :: (cs ++ n ++ r) := by simp
    rw [h2]
    unfold containsSubList
    rw [ih]
    simp

/-- If the haystack's characters decompose around the needle's characters, the
substring test succeeds. -/
lemma containsSub_intro (h n : String) (l r : List Char)
    (he : h.data = l ++ n.data ++ r) : containsSub h n = true := by
  unfold containsSub
  rw [he]
  exact containsSubList_of_append l n.data r

/-- Every element of a parts list occurs contiguously in the joined string. -/
lemma mem_joinLines {s : String} {parts : List String} (hs : s ∈ parts) :
    ∃ l r, (joinLines parts).data = l ++ s.data ++ r := by
  induction parts with
  | nil => cases hs
  | cons p rest ih =>
    rcases List.mem_cons.mp hs with hep | hmem
    · subst hep
      cases rest with
      | nil => exact ⟨[], [], by simp [joinLines]⟩
      | cons q qs =>
        refine ⟨[], '\n' :: (joinLines (q :: qs)).data, ?_⟩
        show (s ++ "\n" ++ joinLines (q :: qs)).data = _
        simp [data_append, data_newline]
    · have hrest : rest ≠ [] := List.ne_nil_of_mem hmem
      obtain ⟨l, r, hlr⟩ := ih hmem
      cases rest with
      | nil => cases hrest rfl
      | cons q qs =>
        refine ⟨p.data ++ '\n' :: l, r, ?_⟩
        show (p ++ "\n" ++ joinLines (q :: qs)).data = _
        simp [data_append, data_newline, hlr]

/-! ## Lemmas about the orchestration -/

lemma attemptSend_closeAttempts (st : TryState) (m : WsMsg) :
    (attemptSend st m).closeAttempts = st.closeAttempts := rfl

lemma stepHook_closeAttempts (shot : Nat → Option String) (ws : Bool)
    (st : TryState) (n : Nat) :
    (stepHook shot ws st n).closeAttempts = st.closeAttempts := by
  unfold stepHook attemptSend
  cases shot n <;> cases ws <;> simp

lemma runHooks_closeAttempts (shot : Nat → Option String) (ws : Bool)
    (st : TryState) (n : Nat) :
    (runHooks shot ws st n).closeAttempts = st.closeAttempts := by
  induction n with
  | zero => rfl
  | succ n ih => simp [runHooks, stepHook_closeAttempts, ih]

lemma stepHook_attempted (shot : Nat → Option String) (st : TryState) (n : Nat) :
    (stepHook shot true st n).attempted = st.attempted ++ stepMsgs shot n := by
  unfold stepHook attemptSend stepMsgs
  cases shot n <;> simp

lemma runHooks_attempted (shot : Nat → Option String) (st : TryState) (n : Nat) :
    (runHooks shot true st n).attempted =
      st.attempted ++ ((List.range n).map (fun i => stepMsgs shot (i + 1))).flatten := by
  induction n with
  | zero => simp [runHooks]
  | succ n ih =>
    simp [runHooks, stepHook_attempted, ih, List.range_succ]

/-- The `TestResult` returned to the caller does not depend on whether the
websocket deliveries succeed: the delivery flags are only consulted after the
fact, to compute the delivered subsequence. -/
lemma executeTest_wsSendOk (env : Env) (f : Nat → Bool) (req : TestRequest) :
    (executeTestWithStreaming { env with wsSendOk := f } req).result =
      (executeTestWithStreaming env req).result := by
  obtain ⟨sT, sE, eT, key, lf, bf, rs, rf, sh, ws, wso, cf⟩ := env
  show (executeTestWithStreaming ⟨sT, sE, eT, key, lf, bf, rs, rf, sh, ws, f, cf⟩ req).result = _
  unfold executeTestWithStreaming
  have hbody : tryBody ⟨sT, sE, eT, key, lf, bf, rs, rf, sh, ws, f, cf⟩ =
      tryBody ⟨sT, sE, eT, key, lf, bf, rs, rf, sh, ws, wso, cf⟩ := rfl
  rw [hbody]
  cases tryBody ⟨sT, sE, eT, key, lf, bf, rs, rf, sh, ws, wso, cf⟩ <;> rfl

/-! ## Claims about the classifier -/

/-- **C1 (counterexample)**: the claim predicts the success verdict whenever no
failure indicator is present and the keyword-match count reaches
`max(1, 20% of the expected-keyword count)`.  On expected = actual =
"the cat jumped" all three expected keywords match, the threshold
`max 1 (3 / 5) = 1` is met, and no failure indicator is present — yet the code
returns the PARTIAL message, because `_simple_comparison` has no keyword-match
rule at all. -/
theorem C1_keyword_rule_counterexample :
    failureCount "the cat jumped" = 0 ∧
    successCount "the cat jumped" = 0 ∧
    (specExpectedKeywords "the cat jumped").length = 3 ∧
    specKeywordMatchCount "the cat jumped" "the cat jumped" = 3 ∧
    max 1 ((specExpectedKeywords "the cat jumped").length / 5) ≤
      specKeywordMatchCount "the cat jumped" "the cat jumped" ∧
    simpleComparison "the cat jumped" "the cat jumped" =
      verdictMessage .unclear "the cat jumped" "the cat jumped" := by
  refine ⟨by decide, by decide, by decide, by decide, by decide, by decide⟩

/-- **C1 (amended)**: the classifier performs no tokenization of the expected
text; when no failure indicator is present it returns the success verdict iff
the success-indicator count is positive — the expected text only affects the
echoed message, never the verdict. -/
theorem C1_success_rule_amended (e a : String) (hf : failureCount a = 0) :
    (simpleComparison e a = verdictMessage .success e a) ↔ 0 < successCount a := by
  have hv := simpleComparison_eq_verdictMessage e a
  have hvf : verdictOf a = (if 0 < successCount a then Verdict.success else .unclear) := by
    unfold verdictOf
    rw [if_neg (by omega)]
  constructor
  · intro h
    exact verdictOf_eq_success (verdictMessage_inj (hv.symm.trans h))
  · intro hs
    rw [hv, hvf, if_pos hs]

/-- **C1 (witness)** for the amended theorem at a concrete input. -/
theorem C1_success_rule_amended_witness :
    simpleComparison "x" "task completed" = verdictMessage .success "x" "task completed" :=
  (C1_success_rule_amended "x" "task completed" (by decide)).mpr (by decide)

/-- **C3**: whenever the case-folded actual text contains one of the fixed
failure-indicator substrings, `_simple_comparison` returns the FAILED message,
regardless of any success indicators also present. -/
theorem C3_failure_indicator_priority (e a : String)
    (h : ∃ k ∈ failure_keywords, containsSub (lowerStr a) k = true) :
    simpleComparison e a =
      "FAILED: Test execution encountered issues. Expected: " ++ e ++
        ". Actual: " ++ a := by
  have hf : failureCount a > 0 := by
    rcases h with ⟨k, hk, hc⟩
    have hmem : k ∈ failure_keywords.filter (fun k => containsSub (lowerStr a) k) :=
      List.mem_filter.mpr ⟨hk, by simpa using hc⟩
    unfold failureCount
    exact List.length_pos.mpr (List.ne_nil_of_mem hmem)
  unfold simpleComparison
  rw [if_pos hf]

/-- **C3 (witness)**: an actual text containing both a success word and the
failure word "error" is classified FAILED. -/
theorem C3_failure_indicator_priority_witness :
    simpleComparison "Login works" "successfully handled Error" =
      "FAILED: Test execution encountered issues. Expected: Login works" ++
        ". Actual: successfully handled Error" :=
  C3_failure_indicator_priority "Login works" "successfully handled Error"
    ⟨"error", by decide, by decide⟩

/-- **C8**: on expected = "" and actual = "done" (zero indicator matches) the
classifier returns the PARTIAL message; and with an empty expected string the
success verdict can only come from a success-indicator match: whenever the
classifier returns the SUCCESS message for expected = "", the
success-indicator count is positive. -/
theorem C8_empty_expected_partial :
    simpleComparison "" "done" = verdictMessage .unclear "" "done" ∧
    ∀ a : String,
      simpleComparison "" a = verdictMessage .success "" a → 0 < successCount a := by
  constructor
  · decide
  · intro a h
    have hv := simpleComparison_eq_verdictMessage "" a
    exact verdictOf_eq_success (verdictMessage_inj (hv.symm.trans h))

/-- **C8 (witness)** for the implication at a concrete input. -/
theorem C8_empty_expected_partial_witness :
    0 < successCount "login completed" :=
  C8_empty_expected_partial.2 "login completed" (by decide)

/-- **C9**: the verdict class `_simple_comparison` chooses is a function of the
actual text alone (`verdictOf` takes only the actual text): for any two
expected texts `e1`, `e2` and the same actual text, both results render the
same verdict class; the expected text only enters the echoed message. -/
theorem C9_expected_noninterference (e1 e2 a : String) :
    simpleComparison e1 a = verdictMessage (verdictOf a) e1 a ∧
    simpleComparison e2 a = verdictMessage (verdictOf a) e2 a :=
  ⟨simpleComparison_eq_verdictMessage e1 a, simpleComparison_eq_verdictMessage e2 a⟩

/-! ## Claim about the task-string builder -/

/-- **C4**: the `task_parts` list built from a request has exactly
`k := (stepsList req.Steps).length` numbered lines, sitting at positions
`6 .. 5 + k` in declared order (`"1. s" .. "k. s"`); and the joined task
string contains the request's URL and its expected-outcome text as
substrings.  The builder is a plain function of the request (deterministic,
no side effects, by construction). -/
theorem C4_task_builder (req : TestRequest) :
    (taskParts req).length = (stepsList req.Steps).length + 9 ∧
    (∀ i s, (stepsList req.Steps)[i]? = some s →
        (taskParts req)[6 + i]? = some (toString (1 + i) ++ ". " ++ s)) ∧
    containsSub (buildTaskStringWithScreenshots req) req.URL = true ∧
    containsSub (buildTaskStringWithScreenshots req) req.Expected_Outcome = true := by
  refine ⟨?_, ?_, ?_, ?_⟩
  · simp [taskParts, numberLines_length]
  · intro i s hi
    have hlt : i < (stepsList req.Steps).length := by
      by_contra hge
      rw [List.getElem?_eq_none (by omega)] at hi
      exact Option.noConfusion hi
    show (taskParts req)[6 + i]? = _
    unfold taskParts
    rw [getElem?_middle _ _ _ i (by rfl) (by rw [numberLines_length]; omega)]
    rw [numberLines_getElem?, hi]
    rfl
  · have hmem : ("Navigate to: " ++ req.URL) ∈ taskParts req := by
      simp [taskParts]
    obtain ⟨l, r, hlr⟩ := mem_joinLines hmem
    rw [data_append] at hlr
    refine containsSub_intro _ _ (l ++ "Navigate to: ".data) r ?_
    show (joinLines (taskParts req)).data = _
    rw [hlr]
    simp
  · have hmem : ("Expected Outcome: " ++ req.Expected_Outcome) ∈ taskParts req := by
      simp [taskParts]
    obtain ⟨l, r, hlr⟩ := mem_joinLines hmem
    rw [data_append] at hlr
    refine containsSub_intro _ _ (l ++ "Expected Outcome: ".data) r ?_
    show (joinLines (taskParts req)).data = _
    rw [hlr]
    simp

/-- **C4 (witness)**: the builder, on the demonstration request with two
steps, yields eleven lines whose seventh is `1. Click login`, and the URL is
a substring of the joined task string. -/
theorem C4_task_builder_witness :
    (taskParts reqDemo).length = 2 + 9 ∧
    (taskParts reqDemo)[6]? = some "1. Click login" ∧
    containsSub (buildTaskStringWithScreenshots reqDemo) reqDemo.URL = true := by
  refine ⟨(C4_task_builder reqDemo).1.trans (by decide), ?_,
    (C4_task_builder reqDemo).2.2.1⟩
  have h := (C4_task_builder reqDemo).2.1 0 "Click login" (by decide)
  simpa using h

/-! ## Claims about the orchestration -/

/-- **C2**: the spec's `status` enumeration is `passed | failed | partial |
error`, and the repo's own dashboard branches on exactly those values — but
a fully successful run returns the status string `"success"`, which is
outside the enumeration (the dashboard renders it as STATUS UNKNOWN). -/
theorem C2_status_outside_enumeration :
    (executeTestWithStreaming envAllOk reqDemo).result.status = "success" ∧
    "success" ∉ (["passed", "failed", "partial", "error"] : List String) := by
  exact ⟨rfl, by decide⟩

/-- **C5 (counterexample)**: close is NOT attempted exactly once per request:
with a missing credential the browser is never constructed and close is
attempted zero times; when the success-path close itself raises, close is
attempted twice (once in the `try:` body and once in the `except` cleanup),
and the primary result is changed from `"success"` to `"error"` — the close
failure does mask the primary result. -/
theorem C5_close_counterexample :
    (executeTestWithStreaming envNoKey reqDemo).closeAttempts = 0 ∧
    (executeTestWithStreaming envCloseFail reqDemo).closeAttempts = 2 ∧
    (executeTestWithStreaming envCloseFail reqDemo).result.status = "error" ∧
    (executeTestWithStreaming envAllOk reqDemo).result.status = "success" :=
  ⟨rfl, rfl, rfl, rfl⟩

/-- **C5 (amended)**: browser close is attempted exactly once whenever the
browser was constructed — except that when the agent run succeeds and the
close itself fails it is attempted twice — and zero times when the failure
occurred before browser construction; a failure of the success-path close is
caught by the generic error handler and changes the returned status to
`"error"` (only the cleanup-path close failure is fully masked). -/
theorem C5_close_discipline_amended (env : Env) (req : TestRequest) :
    (executeTestWithStreaming env req).closeAttempts =
      (if browserInitialized env then
        (if env.runFail = none ∧ env.closeFail ≠ none then 2 else 1)
       else 0) ∧
    ((executeTestWithStreaming env req).result.status = "success" ↔
      browserInitialized env = true ∧ env.runFail = none ∧ env.closeFail = none) := by
  obtain ⟨sT, sE, eT, key, lf, bf, rs, rf, sh, ws, wso, cf⟩ := env
  cases key <;> rcases lf with _ | m1 <;> rcases bf with _ | m2 <;>
    rcases rf with _ | m3 <;> rcases cf with _ | m4 <;>
    simp [executeTestWithStreaming, tryBody, browserInitialized,
      runHooks_closeAttempts]

/-- **C6**: a run that raises before any step callback fires (missing
credential, LLM-init failure, browser-init failure, or an agent failure
before the first callback) still returns a `TestResult` with empty
screenshots, a non-empty execution log containing an `ERROR:` entry, and a
status in {"failed", "error"} (concretely always "error"). -/
theorem C6_prefail_result (env : Env) (req : TestRequest)
    (h : env.apiKeyPresent = false ∨ env.llmFail ≠ none ∨ env.browserFail ≠ none ∨
        (env.runSteps = 0 ∧ env.runFail ≠ none)) :
    (executeTestWithStreaming env req).result.screenshots = [] ∧
    (executeTestWithStreaming env req).result.execution_log ≠ [] ∧
    (∃ m, ("ERROR: " ++ m) ∈ (executeTestWithStreaming env req).result.execution_log) ∧
    ((executeTestWithStreaming env req).result.status = "failed" ∨
      (executeTestWithStreaming env req).result.status = "error") := by
  obtain ⟨sT, sE, eT, key, lf, bf, rs, rf, sh, ws, wso, cf⟩ := env
  cases key <;> rcases lf with _ | m1 <;> rcases bf with _ | m2 <;>
    rcases rf with _ | m3 <;> simp_all [executeTestWithStreaming, tryBody, runHooks]
  all_goals first
    | exact ⟨"GOOGLE_API_KEY not found in environment variables", Or.inr rfl⟩
    | exact ⟨m1, Or.inr rfl⟩
    | exact ⟨m2, Or.inr (Or.inr rfl)⟩
    | exact ⟨m3, Or.inr (Or.inr (Or.inr rfl))⟩

/-- **C6 (witness)**: the missing-credential run at the concrete environment. -/
theorem C6_prefail_result_witness :
    (executeTestWithStreaming envNoKey reqDemo).result.screenshots = [] ∧
    (executeTestWithStreaming envNoKey reqDemo).result.execution_log ≠ [] ∧
    (∃ m, ("ERROR: " ++ m) ∈ (executeTestWithStreaming envNoKey reqDemo).result.execution_log) ∧
    ((executeTestWithStreaming envNoKey reqDemo).result.status = "failed" ∨
      (executeTestWithStreaming envNoKey reqDemo).result.status = "error") :=
  C6_prefail_result envNoKey reqDemo (Or.inl rfl)

/-- **C7 (counterexample)**: the hook does not push a screenshot/status pair
for every completed step: when screenshot capture fails for the step, only
the status message is pushed — here step 1 completes but the attempted sends
consist of the single status message, with no screenshot-shaped message. -/
theorem C7_missing_pair_counterexample :
    (executeTestWithStreaming envWsNoShot reqDemo).attemptedSends =
      [WsMsg.status "Completed step 1" 1] ∧
    ¬ ∃ d n msg, WsMsg.screenshot d n msg ∈
        (executeTestWithStreaming envWsNoShot reqDemo).attemptedSends := by
  constructor
  · rfl
  · rintro ⟨d, n, msg, hm⟩
    rw [show (executeTestWithStreaming envWsNoShot reqDemo).attemptedSends =
        [WsMsg.status "Completed step 1" 1] from rfl] at hm
    simp at hm

/-- **C7 (amended)**: with a websocket attached, for each completed step the
hook pushes the status message `{type: "status", ...}`, preceded by the
screenshot message `{type: "screenshot", ...}` exactly when a screenshot was
captured for that step (so a pair per step with a captured screenshot); and
send failures are swallowed — the returned `TestResult` is unchanged under
any pattern of delivery failures. -/
theorem C7_stream_messages_amended (env : Env) (req : TestRequest) (f : Nat → Bool)
    (hk : env.apiKeyPresent = true) (hl : env.llmFail = none)
    (hb : env.browserFail = none) (hw : env.wsAttached = true) :
    (executeTestWithStreaming env req).attemptedSends =
      ((List.range env.runSteps).map (fun i => stepMsgs env.shot (i + 1))).flatten ∧
    (executeTestWithStreaming { env with wsSendOk := f } req).result =
      (executeTestWithStreaming env req).result := by
  constructor
  · unfold executeTestWithStreaming tryBody
    rw [hk, hl, hb]
    cases hrf : env.runFail <;> cases hcf : env.closeFail <;>
      simp [hw, runHooks_attempted]
  · exact executeTest_wsSendOk env f req

/-- **C7 (witness)** at a concrete environment: one step with a screenshot
yields the screenshot/status pair, and failing every delivery leaves the
result unchanged. -/
theorem C7_stream_messages_witness :
    (executeTestWithStreaming envWsOk reqDemo).attemptedSends =
      ((List.range envWsOk.runSteps).map (fun i => stepMsgs envWsOk.shot (i + 1))).flatten ∧
    (executeTestWithStreaming { envWsOk with wsSendOk := fun _ => false } reqDemo).result =
      (executeTestWithStreaming envWsOk reqDemo).result :=
  C7_stream_messages_amended envWsOk reqDemo (fun _ => false) rfl rfl rfl rfl

/-- **C10 (counterexample)**: a run that completes the agent execution without
exception need not report the constant `actual_outcome` nor a SUCCESS
comparison: if the subsequent `browser.close()` raises, the error handler
overwrites both, and the comparison result does not begin with "SUCCESS". -/
theorem C10_constant_outcome_counterexample :
    envCloseFail.runFail = none ∧
    (executeTestWithStreaming envCloseFail reqDemo).result.actual_outcome ≠
      actualSuccessMsg ∧
    isPrefList "SUCCESS:".data
      (executeTestWithStreaming envCloseFail reqDemo).result.comparison_result.data
      = false := by
  refine ⟨rfl, by decide, by decide⟩

/-- **C10 (amended)**: when the whole `try:` body — agent run and the
subsequent browser close — completes without exception, the returned
`actual_outcome` is the fixed constant string and the comparison result is
the SUCCESS message (the constant text contains the indicators "success" and
"completed" and no failure indicator). -/
theorem C10_constant_outcome_amended (env : Env) (req : TestRequest)
    (hk : env.apiKeyPresent = true) (hl : env.llmFail = none)
    (hb : env.browserFail = none) (hr : env.runFail = none)
    (hc : env.closeFail = none) :
    (executeTestWithStreaming env req).result.actual_outcome = actualSuccessMsg ∧
    (executeTestWithStreaming env req).result.comparison_result =
      verdictMessage .success req.Expected_Outcome actualSuccessMsg := by
  have hok : ∃ st, tryBody env = .ok st := by
    unfold tryBody
    rw [hk, hl, hb, hr, hc]
    exact ⟨_, rfl⟩
  obtain ⟨st, hst⟩ := hok
  unfold executeTestWithStreaming
  rw [hst]
  refine ⟨rfl, ?_⟩
  show simpleComparison req.Expected_Outcome actualSuccessMsg = _
  rw [simpleComparison_eq_verdictMessage]
  have hvs : verdictOf actualSuccessMsg = .success := by decide
  rw [hvs]

/-- **C10 (witness)** at the all-success environment. -/
theorem C10_constant_outcome_witness :
    (executeTestWithStreaming envAllOk reqDemo).result.actual_outcome = actualSuccessMsg ∧
    (executeTestWithStreaming envAllOk reqDemo).result.comparison_result =
      verdictMessage .success reqDemo.Expected_Outcome actualSuccessMsg :=
  C10_constant_outcome_amended envAllOk reqDemo rfl rfl rfl rfl rfl

end Hackathon
